import Mathlib

/-!
# Fl_Window_Driver

A shallow embedding of `Fl_Window_Driver.cxx`, the base class for platform
specific window handling code of the Fast Light Tool Kit.

Pointers are modelled as follows: a handle or an object pointer that the file
only passes around (a region, an off-screen buffer, an image, the shape data)
is a natural number with `0` for `NULL`; the pointer `Fl_X *` that the file
dereferences is an `Option Fl_X` with `none` for `NULL`; the one-to-one pair
of a window and its driver (`pWindow` / `pWindowDriver`) is the driver value,
which holds the state of its window.

Routines that are defined outside the file (`fl_clip_region`,
`fl_delete_offscreen`, the virtual `Fl_Window::draw`, `Fl_Widget::draw_box`,
`Fl_Label::draw`, `Fl_Group::draw_children`, `Fl::cairo_make_current`) are
calls recorded in a trace, in the order in which the file makes them, with
their arguments.
-/

set_option linter.dupNamespace false

/-- The window record `Fl_X` of a shown window. The class is declared in a header,
not in this file; the file uses its fields `region` (the pending-damage region)
and `other_xid` (the off-screen buffer); `xid` stands for the rest of the record. -/
structure Fl_X where
  xid : Nat
  other_xid : Nat
  region : Nat
deriving DecidableEq

/-- The label record `Fl_Label`. The struct is declared in a header, not
in this file; the file uses `align_`, `image`, `deimage` and `type`, and zero-fills
the others (`value` is the label text). -/
structure Fl_Label where
  value : Nat
  image : Nat
  deimage : Nat
  font : Nat
  size : Nat
  color : Nat
  align_ : Nat
  type : Nat
deriving DecidableEq

/-- The result of `memset(&l1, 0, sizeof(l1))`. -/
def Fl_Label.zeroed : Fl_Label :=
  { value := 0, image := 0, deimage := 0, font := 0, size := 0, color := 0,
    align_ := 0, type := 0 }

/-- The part of an `Fl_Window` that the file reads through `pWindow`: its window
record `i` (what `Fl_X::i(pWindow)` returns), the stored damage byte, geometry,
box style, color, image pointer, alignment, label type and `active_r()`. -/
structure Fl_Window where
  i : Option Fl_X
  damage_ : Nat
  x : Int
  y : Int
  w : Int
  h : Int
  box : Nat
  color : Nat
  image : Nat
  align : Nat
  labeltype : Nat
  active_r : Bool
deriving DecidableEq

/-- The accessor `damage()`: the damage flags are an unsigned byte. -/
def Fl_Window.damage (win : Fl_Window) : Nat := win.damage_ % 2 ^ 8

/-- The static accessor `Fl_X::i(w)`: the window record of `w`, `none` when the
window has none. -/
def Fl_X.i (w : Fl_Window) : Option Fl_X := w.i

/-- The driver: the back-reference to its window and the shape-mask pointer. -/
structure Fl_Window_Driver where
  pWindow : Fl_Window
  shape_data_ : Nat
deriving DecidableEq

/-- A call to a routine defined outside the file, with its arguments. The call of
the window's virtual `draw()` carries the state of the receiver `*pWindow` at
the moment of the call. -/
inductive Call where
  | fl_clip_region (r : Nat)
  | window_draw (self : Fl_Window)
  | fl_delete_offscreen (b : Nat)
  | draw_box (b : Nat) (x y w h : Int) (c : Nat)
  | label_draw (l : Fl_Label) (x y w h : Int) (align : Nat)
  | draw_children
  | cairo_make_current
deriving DecidableEq

/-- Constants and the build switch that the file takes from headers
(`FL/Enumerations.H`, `config.h`). -/
structure Config where
  FL_DAMAGE_CHILD : Nat
  FL_ALIGN_INSIDE : Nat
  FLTK_USE_CAIRO : Bool
deriving DecidableEq

/-- The state the driver's methods act on: the driver with its window, the
current clip region of the graphics driver, and the trace of outside calls. -/
structure Machine where
  driver : Fl_Window_Driver
  clip : Nat
  calls : List Call
deriving DecidableEq

/-- Appends one outside call to the trace. -/
def Machine.emit (s : Machine) (c : Call) : Machine :=
  { s with calls := s.calls ++ [c] }

/-- The calls `after` has made beyond those of `before`. -/
def Machine.emitted (before after : Machine) : List Call :=
  after.calls.drop before.calls.length

/-- Stores `r` through the pointer `i` obtained from `Fl_X::i(pWindow)`. -/
def Machine.store_record (s : Machine) (r : Fl_X) : Machine :=
  { s with driver := { s.driver with pWindow := { s.driver.pWindow with i := some r } } }

/-- The outside routine `fl_clip_region(r)`: makes `r` the current clip region. -/
def fl_clip_region (r : Nat) (s : Machine) : Machine :=
  { s with clip := r, calls := s.calls ++ [Call.fl_clip_region r] }

/-- The outside routine `fl_delete_offscreen(b)`. -/
def fl_delete_offscreen (b : Nat) (s : Machine) : Machine :=
  s.emit (Call.fl_delete_offscreen b)

/-- The virtual call `pWindow->draw()`. -/
def Fl_Window.draw (s : Machine) : Machine :=
  s.emit (Call.window_draw s.driver.pWindow)

/-- The constructor `Fl_Window_Driver::Fl_Window_Driver(win)`. -/
def Fl_Window_Driver.Fl_Window_Driver (win : Fl_Window) : Fl_Window_Driver :=
  { pWindow := win, shape_data_ := 0 }

/-- Method `Fl_Window_Driver::take_focus`: nothing to do. -/
def Fl_Window_Driver.take_focus (s : Machine) : Machine := s

/-- Method `Fl_Window_Driver::flush_single`. -/
def Fl_Window_Driver.flush_single (s : Machine) : Machine :=
  match Fl_X.i s.driver.pWindow with
  | none => s
  | some i =>
    let s1 := fl_clip_region i.region s
    let s2 := s1.store_record { i with region := 0 }
    Fl_Window.draw s2

/-- Method `Fl_Window_Driver::flush_double`. -/
def Fl_Window_Driver.flush_double (s : Machine) : Machine :=
  Fl_Window_Driver.flush_single s

/-- Method `Fl_Window_Driver::flush_overlay`. -/
def Fl_Window_Driver.flush_overlay (s : Machine) : Machine :=
  Fl_Window_Driver.flush_single s

/-- Method `Fl_Window_Driver::draw_begin`: nothing to do. -/
def Fl_Window_Driver.draw_begin (s : Machine) : Machine := s

/-- Method `Fl_Window_Driver::draw_end`: nothing to do. -/
def Fl_Window_Driver.draw_end (s : Machine) : Machine := s

/-- What stops a method: the dereference of a null pointer. -/
inductive Fault where
  | null_dereference
deriving DecidableEq

/-- Method `Fl_Window_Driver::destroy_double_buffer`. The pointer `i` is dereferenced
without a test. -/
def Fl_Window_Driver.destroy_double_buffer (s : Machine) : Except Fault Machine :=
  match Fl_X.i s.driver.pWindow with
  | none => Except.error Fault.null_dereference
  | some i =>
    let s1 := fl_delete_offscreen i.other_xid s
    Except.ok (s1.store_record { i with other_xid := 0 })

/-- The operator `~` on a 32-bit `int`, on the two's complement bit pattern. -/
def int_compl (c : Nat) : Nat := 2 ^ 32 - 1 - c % 2 ^ 32

/-- The label `l1` that `Fl_Window_Driver::draw` builds for the image. -/
def Fl_Window_Driver.draw_l1 (pWindow : Fl_Window) : Fl_Label :=
  let l1 := Fl_Label.zeroed
  let l1 := { l1 with align_ := pWindow.align }
  let l1 := { l1 with image := pWindow.image }
  let l1 := if !pWindow.active_r && l1.image != 0 && l1.deimage != 0
            then { l1 with image := l1.deimage } else l1
  { l1 with type := pWindow.labeltype }

/-- Method `Fl_Window_Driver::draw`. -/
def Fl_Window_Driver.draw (cfg : Config) (s : Machine) : Machine :=
  let pWindow := s.driver.pWindow
  let s1 :=
    if pWindow.damage &&& int_compl cfg.FL_DAMAGE_CHILD != 0 then
      let s2 := s.emit (Call.draw_box pWindow.box 0 0 pWindow.w pWindow.h pWindow.color)
      if pWindow.image != 0 && (pWindow.align &&& cfg.FL_ALIGN_INSIDE) != 0 then
        s2.emit (Call.label_draw (Fl_Window_Driver.draw_l1 pWindow) 0 0 pWindow.w pWindow.h
          pWindow.align)
      else s2
    else s
  let s3 := s1.emit Call.draw_children
  if cfg.FLTK_USE_CAIRO then s3.emit Call.cairo_make_current else s3

/-- Method `Fl_Window::is_shaped`, on the window's driver `pWindowDriver`. -/
def Fl_Window.is_shaped (pWindowDriver : Fl_Window_Driver) : Int :=
  if pWindowDriver.shape_data_ != 0 then 1 else 0

/-- Method `Fl_Window_Driver::capture_titlebar_and_borders`: the four reference
parameters `top`, `left`, `bottom`, `right` are returned beside the state. -/
def Fl_Window_Driver.capture_titlebar_and_borders (s : Machine) (_top _left _bottom _right : Nat) :
    Machine × Nat × Nat × Nat × Nat :=
  (s, 0, 0, 0, 0)

/-- The constants of FLTK and a build without cairo. -/
def Config.fltk : Config :=
  { FL_DAMAGE_CHILD := 0x01, FL_ALIGN_INSIDE := 16, FLTK_USE_CAIRO := false }

/-- A shown double-buffered window at (40, 30) with damage `FL_DAMAGE_ALL`, an
image, inside alignment, a pending-damage region 7 and an off-screen buffer 9. -/
def Fl_Window.sample : Fl_Window :=
  { i := some { xid := 3, other_xid := 9, region := 7 }, damage_ := 0x80,
    x := 40, y := 30, w := 200, h := 100, box := 1, color := 49, image := 5,
    align := 16, labeltype := 0, active_r := false }

/-- The driver of `Fl_Window.sample`, shaped, with an empty trace. -/
def Machine.sample : Machine :=
  { driver := { pWindow := Fl_Window.sample, shape_data_ := 11 }, clip := 0, calls := [] }

/-- A window that is not shown: it has no window record. -/
def Machine.hidden : Machine :=
  { driver := { pWindow := { Fl_Window.sample with i := none }, shape_data_ := 0 },
    clip := 2, calls := [] }

/-- Recognises a call of `draw_box`. -/
def Call.is_draw_box : Call → Bool
  | Call.draw_box _ _ _ _ _ _ => true
  | _ => false

/-- Recognises a call of `Fl_Label::draw`. -/
def Call.is_label_draw : Call → Bool
  | Call.label_draw _ _ _ _ _ _ => true
  | _ => false

/-- Recognises a call of the window's virtual `draw()`. -/
def Call.is_window_draw : Call → Bool
  | Call.window_draw _ => true
  | _ => false

/-! ## Helper lemmas -/

theorem Machine.emitted_append (s t : Machine) (l : List Call) (h : t.calls = s.calls ++ l) :
    Machine.emitted s t = l := by
  unfold Machine.emitted
  rw [h]
  exact List.drop_left _ _

theorem flush_single_some (s : Machine) (i : Fl_X) (h : Fl_X.i s.driver.pWindow = some i) :
    Fl_Window_Driver.flush_single s =
      { driver := { s.driver with
                    pWindow := { s.driver.pWindow with i := some { i with region := 0 } } },
        clip := i.region,
        calls := s.calls ++ [Call.fl_clip_region i.region,
          Call.window_draw { s.driver.pWindow with i := some { i with region := 0 } }] } := by
  unfold Fl_Window_Driver.flush_single
  rw [h]
  simp [fl_clip_region, Machine.store_record, Fl_Window.draw, Machine.emit]

theorem flush_single_none (s : Machine) (h : Fl_X.i s.driver.pWindow = none) :
    Fl_Window_Driver.flush_single s = s := by
  unfold Fl_Window_Driver.flush_single
  rw [h]

theorem destroy_double_buffer_some (s : Machine) (i : Fl_X)
    (h : Fl_X.i s.driver.pWindow = some i) :
    Fl_Window_Driver.destroy_double_buffer s = Except.ok
      { driver := { s.driver with
                    pWindow := { s.driver.pWindow with i := some { i with other_xid := 0 } } },
        clip := s.clip,
        calls := s.calls ++ [Call.fl_delete_offscreen i.other_xid] } := by
  unfold Fl_Window_Driver.destroy_double_buffer
  rw [h]
  simp [fl_delete_offscreen, Machine.store_record, Machine.emit]

theorem testBit_int_compl (c k : Nat) :
    (int_compl c).testBit k = (decide (k < 32) && !c.testBit k) := by
  have hlt : c % 2 ^ 32 < 2 ^ 32 := Nat.mod_lt _ (by norm_num)
  have h := Nat.testBit_two_pow_sub_succ hlt k
  have he : int_compl c = 2 ^ 32 - (c % 2 ^ 32 + 1) := by
    unfold int_compl
    omega
  rw [he, h, Nat.testBit_mod_two_pow]
  by_cases hk : k < 32 <;> simp [hk]

theorem land_ne_zero_iff (a f : Nat) :
    (a &&& f != 0) = true ↔ ∃ k, a.testBit k = true ∧ f.testBit k = true := by
  constructor
  · intro h
    have hne : a &&& f ≠ 0 := by simpa using h
    obtain ⟨k, hk⟩ := Nat.ne_zero_implies_bit_true hne
    rw [Nat.testBit_and] at hk
    exact ⟨k, by simpa using hk⟩
  · rintro ⟨k, ha, hf⟩
    have hne : a &&& f ≠ 0 := by
      intro h0
      have : (a &&& f).testBit k = true := by
        rw [Nat.testBit_and, ha, hf]; rfl
      rw [h0] at this
      simp at this
    simpa using hne

theorem land_compl_ne_zero_iff (d c : Nat) (hd : d < 2 ^ 8) :
    (d &&& int_compl c != 0) = true ↔ ∃ k, d.testBit k = true ∧ c.testBit k = false := by
  rw [land_ne_zero_iff]
  constructor
  · rintro ⟨k, hk, hc⟩
    rw [testBit_int_compl] at hc
    refine ⟨k, hk, ?_⟩
    simp at hc
    exact hc.2
  · rintro ⟨k, hk, hc⟩
    refine ⟨k, hk, ?_⟩
    rw [testBit_int_compl, hc]
    have hk8 : k < 8 := by
      by_contra hge
      have hle : 2 ^ 8 ≤ 2 ^ k := Nat.pow_le_pow_right (by norm_num) (by omega)
      have : d.testBit k = false := Nat.testBit_lt_two_pow (lt_of_lt_of_le hd hle)
      rw [this] at hk
      exact Bool.noConfusion hk
    have : k < 32 := by omega
    simp [this]

theorem Fl_Window.damage_lt (win : Fl_Window) : win.damage < 2 ^ 8 :=
  Nat.mod_lt _ (by norm_num)

theorem draw_emitted (cfg : Config) (s : Machine) :
    Machine.emitted s (Fl_Window_Driver.draw cfg s) =
      (if s.driver.pWindow.damage &&& int_compl cfg.FL_DAMAGE_CHILD != 0 then
         Call.draw_box s.driver.pWindow.box 0 0 s.driver.pWindow.w s.driver.pWindow.h
             s.driver.pWindow.color ::
           (if s.driver.pWindow.image != 0 &&
                 (s.driver.pWindow.align &&& cfg.FL_ALIGN_INSIDE) != 0 then
              [Call.label_draw (Fl_Window_Driver.draw_l1 s.driver.pWindow) 0 0
                 s.driver.pWindow.w s.driver.pWindow.h s.driver.pWindow.align]
            else [])
       else []) ++
      Call.draw_children :: (if cfg.FLTK_USE_CAIRO then [Call.cairo_make_current] else []) := by
  apply Machine.emitted_append
  unfold Fl_Window_Driver.draw
  simp only [Machine.emit]
  split_ifs <;> simp

theorem draw_l1_eq (win : Fl_Window) :
    Fl_Window_Driver.draw_l1 win =
      { Fl_Label.zeroed with align_ := win.align, image := win.image, type := win.labeltype } := by
  unfold Fl_Window_Driver.draw_l1
  simp [Fl_Label.zeroed]

/-! ## The flush methods -/

/-- C1 (as stated, refuted): on the sample window, whose pending-damage region is 7,
it is not the case that `flush_single` clips to region 7 and then invokes the
window's draw routine while the record still holds region 7. -/
theorem flush_single_draw_before_clear_counterexample :
    ¬ ∃ self : Fl_Window,
        Machine.emitted Machine.sample (Fl_Window_Driver.flush_single Machine.sample) =
          [Call.fl_clip_region 7, Call.window_draw self] ∧
        Option.map Fl_X.region (Fl_X.i self) = some 7 := by
  rintro ⟨self, h, hr⟩
  have h0 : Machine.emitted Machine.sample (Fl_Window_Driver.flush_single Machine.sample) =
      [Call.fl_clip_region 7,
       Call.window_draw
         { Fl_Window.sample with i := some { xid := 3, other_xid := 9, region := 0 } }] := by
    decide
  rw [h0] at h
  simp only [List.cons.injEq, Call.window_draw.injEq, and_true, true_and] at h
  subst h
  revert hr
  decide

/-- C1 (amended): when the window has a window record `i`, `flush_single` makes
exactly two outside calls, in this order: `fl_clip_region` with the pending-damage
region of `i`, then the window's draw routine; the draw routine is invoked on a
window whose record already has region 0 and is otherwise `i`, so the region is
cleared before the draw routine runs, and the clip region is the pending one. -/
theorem flush_single_clip_clear_draw (s : Machine) (i : Fl_X)
    (h : Fl_X.i s.driver.pWindow = some i) :
    Machine.emitted s (Fl_Window_Driver.flush_single s) =
      [Call.fl_clip_region i.region,
       Call.window_draw { s.driver.pWindow with i := some { i with region := 0 } }] ∧
    (Fl_Window_Driver.flush_single s).clip = i.region ∧
    Fl_X.i (Fl_Window_Driver.flush_single s).driver.pWindow = some { i with region := 0 } := by
  refine ⟨?_, ?_, ?_⟩
  · exact Machine.emitted_append _ _ _ (by rw [flush_single_some s i h])
  · rw [flush_single_some s i h]
  · rw [flush_single_some s i h]
    rfl

/-- Witness of `flush_single_clip_clear_draw` on the sample window. -/
theorem flush_single_clip_clear_draw_witness :
    Fl_X.i Machine.sample.driver.pWindow = some { xid := 3, other_xid := 9, region := 7 } ∧
    Machine.emitted Machine.sample (Fl_Window_Driver.flush_single Machine.sample) =
      [Call.fl_clip_region 7,
       Call.window_draw
         { Fl_Window.sample with i := some { xid := 3, other_xid := 9, region := 0 } }] ∧
    (Fl_Window_Driver.flush_single Machine.sample).clip = 7 ∧
    Fl_X.i (Fl_Window_Driver.flush_single Machine.sample).driver.pWindow =
      some { xid := 3, other_xid := 9, region := 0 } :=
  ⟨rfl, flush_single_clip_clear_draw Machine.sample { xid := 3, other_xid := 9, region := 7 } rfl⟩

/-- C2: when the window has a window record `i` with pending-damage region
`i.region`, `flush_double` and `flush_overlay` end in the same state as
`flush_single`; in that state the clip region is `i.region` and was set by one
call of `fl_clip_region`, the window's draw routine was invoked exactly once,
the record is `i` with region 0 (so `xid` and `other_xid` are unchanged), and
nothing else of the driver or its window is changed. -/
theorem flush_variants_same_result (s : Machine) (i : Fl_X)
    (h : Fl_X.i s.driver.pWindow = some i) :
    Fl_Window_Driver.flush_double s = Fl_Window_Driver.flush_single s ∧
    Fl_Window_Driver.flush_overlay s = Fl_Window_Driver.flush_single s ∧
    (Fl_Window_Driver.flush_single s).clip = i.region ∧
    (Machine.emitted s (Fl_Window_Driver.flush_single s)).count
      (Call.fl_clip_region i.region) = 1 ∧
    ((Machine.emitted s (Fl_Window_Driver.flush_single s)).filter
      Call.is_window_draw).length = 1 ∧
    Fl_X.i (Fl_Window_Driver.flush_single s).driver.pWindow =
      some { xid := i.xid, other_xid := i.other_xid, region := 0 } ∧
    (Fl_Window_Driver.flush_single s).driver =
      { s.driver with
        pWindow := { s.driver.pWindow with i := some { i with region := 0 } } } := by
  have he := Machine.emitted_append s (Fl_Window_Driver.flush_single s) _
    (by rw [flush_single_some s i h])
  refine ⟨rfl, rfl, ?_, ?_, ?_, ?_, ?_⟩
  · rw [flush_single_some s i h]
  · rw [he]
    simp
  · rw [he]
    simp [Call.is_window_draw]
  · rw [flush_single_some s i h]
    rfl
  · rw [flush_single_some s i h]

/-- Witness of `flush_variants_same_result` on the sample window. -/
theorem flush_variants_same_result_witness :
    Fl_X.i Machine.sample.driver.pWindow = some { xid := 3, other_xid := 9, region := 7 } ∧
    Fl_Window_Driver.flush_double Machine.sample = Fl_Window_Driver.flush_single Machine.sample ∧
    Fl_Window_Driver.flush_overlay Machine.sample = Fl_Window_Driver.flush_single Machine.sample ∧
    (Fl_Window_Driver.flush_single Machine.sample).clip = 7 ∧
    (Machine.emitted Machine.sample (Fl_Window_Driver.flush_single Machine.sample)).count
      (Call.fl_clip_region 7) = 1 ∧
    ((Machine.emitted Machine.sample (Fl_Window_Driver.flush_single Machine.sample)).filter
      Call.is_window_draw).length = 1 ∧
    Fl_X.i (Fl_Window_Driver.flush_single Machine.sample).driver.pWindow =
      some { xid := 3, other_xid := 9, region := 0 } ∧
    (Fl_Window_Driver.flush_single Machine.sample).driver =
      { Machine.sample.driver with
        pWindow := { Fl_Window.sample with
                     i := some { xid := 3, other_xid := 9, region := 0 } } } :=
  ⟨rfl, flush_variants_same_result Machine.sample { xid := 3, other_xid := 9, region := 7 } rfl⟩

/-- C3: when the window has no window record, each of `flush_single`,
`flush_double` and `flush_overlay` returns the state it was given: the clip
region, the trace of outside calls (so the draw routine is not invoked) and the
driver with its window are unchanged. -/
theorem flush_without_record_is_noop (s : Machine) (h : Fl_X.i s.driver.pWindow = none) :
    Fl_Window_Driver.flush_single s = s ∧
    Fl_Window_Driver.flush_double s = s ∧
    Fl_Window_Driver.flush_overlay s = s ∧
    Machine.emitted s (Fl_Window_Driver.flush_single s) = [] :=
  ⟨flush_single_none s h, flush_single_none s h, flush_single_none s h,
   Machine.emitted_append _ _ _ (by rw [flush_single_none s h]; simp)⟩

/-- Witness of `flush_without_record_is_noop` on a window that is not shown. -/
theorem flush_without_record_is_noop_witness :
    Fl_X.i Machine.hidden.driver.pWindow = none ∧
    Fl_Window_Driver.flush_single Machine.hidden = Machine.hidden ∧
    Fl_Window_Driver.flush_double Machine.hidden = Machine.hidden ∧
    Fl_Window_Driver.flush_overlay Machine.hidden = Machine.hidden ∧
    Machine.emitted Machine.hidden (Fl_Window_Driver.flush_single Machine.hidden) = [] :=
  ⟨rfl, flush_without_record_is_noop Machine.hidden rfl⟩

/-! ## destroy_double_buffer -/

/-- C4 (the code at the failing input): for every driver, clip region and trace,
when the window has no window record `destroy_double_buffer` does not return
early: it dereferences the null record pointer. -/
theorem destroy_double_buffer_without_record_faults (d : Fl_Window_Driver) (clip : Nat)
    (calls : List Call) :
    Fl_Window_Driver.destroy_double_buffer
      { driver := { d with pWindow := { d.pWindow with i := none } },
        clip := clip, calls := calls } = Except.error Fault.null_dereference := by
  rfl

/-- C5: when the window has a window record `i` whose off-screen buffer handle
`i.other_xid` is a buffer (not the null handle), `destroy_double_buffer` returns,
having called `fl_delete_offscreen` exactly once, with `i.other_xid`, and no other
outside routine; afterwards the record is `i` with `other_xid` 0 (so the
pending-damage region is unchanged) and the shape data and the rest of the
driver and window are unchanged. A second call returns too, passes the null
handle 0 to `fl_delete_offscreen` and so does not release `i.other_xid` again. -/
theorem destroy_double_buffer_releases_once (s : Machine) (i : Fl_X)
    (h : Fl_X.i s.driver.pWindow = some i) (hb : i.other_xid ≠ 0) :
    ∃ s1 s2,
      Fl_Window_Driver.destroy_double_buffer s = Except.ok s1 ∧
      Machine.emitted s s1 = [Call.fl_delete_offscreen i.other_xid] ∧
      Fl_X.i s1.driver.pWindow = some { xid := i.xid, other_xid := 0, region := i.region } ∧
      s1.driver.shape_data_ = s.driver.shape_data_ ∧
      s1.driver = { s.driver with
                    pWindow := { s.driver.pWindow with i := some { i with other_xid := 0 } } } ∧
      s1.clip = s.clip ∧
      Fl_Window_Driver.destroy_double_buffer s1 = Except.ok s2 ∧
      Machine.emitted s1 s2 = [Call.fl_delete_offscreen 0] ∧
      Call.fl_delete_offscreen i.other_xid ∉ Machine.emitted s1 s2 := by
  have h1 := destroy_double_buffer_some s i h
  have h2 := destroy_double_buffer_some
    { driver := { s.driver with
                  pWindow := { s.driver.pWindow with i := some { i with other_xid := 0 } } },
      clip := s.clip,
      calls := s.calls ++ [Call.fl_delete_offscreen i.other_xid] }
    { i with other_xid := 0 } rfl
  refine ⟨_, _, h1, Machine.emitted_append _ _ _ rfl, rfl, rfl, rfl, rfl, h2, ?_, ?_⟩
  · exact Machine.emitted_append _ _ _ rfl
  · rw [Machine.emitted_append _ _ [Call.fl_delete_offscreen 0] rfl]
    simp only [List.mem_singleton, Call.fl_delete_offscreen.injEq]
    exact hb

/-- Witness of `destroy_double_buffer_releases_once` on the sample window, whose
record holds the off-screen buffer 9. -/
theorem destroy_double_buffer_releases_once_witness :
    Fl_X.i Machine.sample.driver.pWindow = some { xid := 3, other_xid := 9, region := 7 } ∧
    (9 : Nat) ≠ 0 ∧
    ∃ s1 s2,
      Fl_Window_Driver.destroy_double_buffer Machine.sample = Except.ok s1 ∧
      Machine.emitted Machine.sample s1 = [Call.fl_delete_offscreen 9] ∧
      Fl_X.i s1.driver.pWindow = some { xid := 3, other_xid := 0, region := 7 } ∧
      s1.driver.shape_data_ = 11 ∧
      s1.driver = { Machine.sample.driver with
                    pWindow := { Fl_Window.sample with
                                 i := some { xid := 3, other_xid := 0, region := 7 } } } ∧
      s1.clip = 0 ∧
      Fl_Window_Driver.destroy_double_buffer s1 = Except.ok s2 ∧
      Machine.emitted s1 s2 = [Call.fl_delete_offscreen 0] ∧
      Call.fl_delete_offscreen 9 ∉ Machine.emitted s1 s2 :=
  ⟨rfl, by decide, destroy_double_buffer_releases_once Machine.sample
    { xid := 3, other_xid := 9, region := 7 } rfl (by decide)⟩

/-! ## is_shaped -/

/-- C6: `is_shaped()` returns non-zero exactly when the driver's shape-mask
pointer `shape_data_` is non-null; a freshly constructed driver has a null
shape-mask pointer and `is_shaped()` returns 0 for it; and `take_focus`, the three
flush methods, `draw_begin`, `draw_end`, `draw` and
`capture_titlebar_and_borders` leave the value of `is_shaped()` unchanged, as does
`destroy_double_buffer` whenever it returns (it returns exactly when the window
has a window record). -/
theorem is_shaped_iff_shape_data (d : Fl_Window_Driver) (win : Fl_Window) (s : Machine)
    (cfg : Config) (top left bottom right : Nat) :
    (Fl_Window.is_shaped d ≠ 0 ↔ d.shape_data_ ≠ 0) ∧
    (Fl_Window_Driver.Fl_Window_Driver win).shape_data_ = 0 ∧
    Fl_Window.is_shaped (Fl_Window_Driver.Fl_Window_Driver win) = 0 ∧
    Fl_Window.is_shaped (Fl_Window_Driver.take_focus s).driver = Fl_Window.is_shaped s.driver ∧
    Fl_Window.is_shaped (Fl_Window_Driver.flush_single s).driver =
      Fl_Window.is_shaped s.driver ∧
    Fl_Window.is_shaped (Fl_Window_Driver.flush_double s).driver =
      Fl_Window.is_shaped s.driver ∧
    Fl_Window.is_shaped (Fl_Window_Driver.flush_overlay s).driver =
      Fl_Window.is_shaped s.driver ∧
    Fl_Window.is_shaped (Fl_Window_Driver.draw_begin s).driver = Fl_Window.is_shaped s.driver ∧
    Fl_Window.is_shaped (Fl_Window_Driver.draw_end s).driver = Fl_Window.is_shaped s.driver ∧
    (match Fl_Window_Driver.destroy_double_buffer s with
     | Except.ok s1 =>
         (Fl_X.i s.driver.pWindow).isSome = true ∧
         Fl_Window.is_shaped s1.driver = Fl_Window.is_shaped s.driver
     | Except.error _ => Fl_X.i s.driver.pWindow = none) ∧
    Fl_Window.is_shaped (Fl_Window_Driver.draw cfg s).driver = Fl_Window.is_shaped s.driver ∧
    Fl_Window.is_shaped
        (Fl_Window_Driver.capture_titlebar_and_borders s top left bottom right).1.driver =
      Fl_Window.is_shaped s.driver := by
  have hflush : Fl_Window.is_shaped (Fl_Window_Driver.flush_single s).driver =
      Fl_Window.is_shaped s.driver := by
    cases h : Fl_X.i s.driver.pWindow with
    | none => rw [flush_single_none s h]
    | some i => rw [flush_single_some s i h]; rfl
  refine ⟨?_, rfl, rfl, rfl, hflush, hflush, hflush, rfl, rfl, ?_, ?_, rfl⟩
  · unfold Fl_Window.is_shaped
    by_cases h : d.shape_data_ = 0 <;> simp [h]
  · cases h : Fl_X.i s.driver.pWindow with
    | none =>
      unfold Fl_Window_Driver.destroy_double_buffer
      rw [h]
    | some i =>
      rw [destroy_double_buffer_some s i h]
      exact ⟨rfl, rfl⟩
  · unfold Fl_Window_Driver.draw
    simp only [Machine.emit]
    split_ifs <;> rfl

/-! ## draw -/

/-- C7: `Fl_Window_Driver::draw` calls `draw_box` if and only if the window's damage
flags have a bit set that is not a bit of `FL_DAMAGE_CHILD`; when they have, it
calls `draw_box` exactly once, with the window's box style and color, over the
rectangle (0, 0, w(), h()), whatever the window's x() and y(). -/
theorem draw_box_iff_damage_beyond_child (cfg : Config) (s : Machine) :
    ((∃ c ∈ Machine.emitted s (Fl_Window_Driver.draw cfg s), c.is_draw_box = true) ↔
      ∃ k, s.driver.pWindow.damage.testBit k = true ∧ cfg.FL_DAMAGE_CHILD.testBit k = false) ∧
    ((∃ k, s.driver.pWindow.damage.testBit k = true ∧ cfg.FL_DAMAGE_CHILD.testBit k = false) →
      (Machine.emitted s (Fl_Window_Driver.draw cfg s)).filter Call.is_draw_box =
        [Call.draw_box s.driver.pWindow.box 0 0 s.driver.pWindow.w s.driver.pWindow.h
           s.driver.pWindow.color]) := by
  rw [draw_emitted]
  have hbit := land_compl_ne_zero_iff s.driver.pWindow.damage cfg.FL_DAMAGE_CHILD
    (Fl_Window.damage_lt _)
  by_cases hd : (s.driver.pWindow.damage &&& int_compl cfg.FL_DAMAGE_CHILD != 0) = true
  · have hex := hbit.mp hd
    rw [if_pos hd]
    refine ⟨⟨fun _ => hex, fun _ =>
      ⟨Call.draw_box s.driver.pWindow.box 0 0 s.driver.pWindow.w s.driver.pWindow.h
        s.driver.pWindow.color, by simp, rfl⟩⟩, fun _ => ?_⟩
    split_ifs <;> simp [Call.is_draw_box, List.filter]
  · have hnex : ¬ ∃ k, s.driver.pWindow.damage.testBit k = true ∧
        cfg.FL_DAMAGE_CHILD.testBit k = false := fun h => hd (hbit.mpr h)
    rw [if_neg hd]
    refine ⟨⟨?_, fun h => absurd h hnex⟩, fun h => absurd h hnex⟩
    rintro ⟨c, hc, hb⟩
    exfalso
    split_ifs at hc <;> simp at hc <;> rcases hc with rfl | rfl <;> simp [Call.is_draw_box] at hb

/-- Witness of `draw_box_iff_damage_beyond_child` on the sample window, which sits at
(40, 30) and has the damage bit 0x80 set. -/
theorem draw_box_iff_damage_beyond_child_witness :
    (∃ k, Machine.sample.driver.pWindow.damage.testBit k = true ∧
      Config.fltk.FL_DAMAGE_CHILD.testBit k = false) ∧
    (Machine.emitted Machine.sample
        (Fl_Window_Driver.draw Config.fltk Machine.sample)).filter Call.is_draw_box =
      [Call.draw_box 1 0 0 200 100 49] :=
  ⟨⟨7, by decide, by decide⟩,
   (draw_box_iff_damage_beyond_child Config.fltk Machine.sample).2 ⟨7, by decide, by decide⟩⟩

/-- C8: `Fl_Window_Driver::draw` calls `Fl_Label::draw` if and only if the damage flags
have a bit set that is not a bit of `FL_DAMAGE_CHILD`, the window has an image
(the image pointer is non-null) and the window's alignment has a bit of
`FL_ALIGN_INSIDE` set; when these hold, the call is made exactly once, directly
after the call of `draw_box`, over (0, 0, w(), h()) with the window's alignment,
on a label record whose image is the window's image, whose text is null and
whose alignment and type are the window's alignment and label type. -/
theorem draw_image_iff_inside (cfg : Config) (s : Machine) :
    ((∃ c ∈ Machine.emitted s (Fl_Window_Driver.draw cfg s), c.is_label_draw = true) ↔
      ((∃ k, s.driver.pWindow.damage.testBit k = true ∧
          cfg.FL_DAMAGE_CHILD.testBit k = false) ∧
        s.driver.pWindow.image ≠ 0 ∧
        ∃ k, s.driver.pWindow.align.testBit k = true ∧ cfg.FL_ALIGN_INSIDE.testBit k = true)) ∧
    (((∃ k, s.driver.pWindow.damage.testBit k = true ∧
          cfg.FL_DAMAGE_CHILD.testBit k = false) ∧
        s.driver.pWindow.image ≠ 0 ∧
        ∃ k, s.driver.pWindow.align.testBit k = true ∧ cfg.FL_ALIGN_INSIDE.testBit k = true) →
      ∃ l rest,
        Machine.emitted s (Fl_Window_Driver.draw cfg s) =
          Call.draw_box s.driver.pWindow.box 0 0 s.driver.pWindow.w s.driver.pWindow.h
              s.driver.pWindow.color ::
            Call.label_draw l 0 0 s.driver.pWindow.w s.driver.pWindow.h
              s.driver.pWindow.align :: rest ∧
        rest.filter Call.is_label_draw = [] ∧
        l.image = s.driver.pWindow.image ∧
        l.value = 0 ∧ l.align_ = s.driver.pWindow.align ∧
        l.type = s.driver.pWindow.labeltype) := by
  rw [draw_emitted]
  have hbit := land_compl_ne_zero_iff s.driver.pWindow.damage cfg.FL_DAMAGE_CHILD
    (Fl_Window.damage_lt _)
  have himg : (s.driver.pWindow.image != 0 &&
      (s.driver.pWindow.align &&& cfg.FL_ALIGN_INSIDE) != 0) = true ↔
      (s.driver.pWindow.image ≠ 0 ∧
        ∃ k, s.driver.pWindow.align.testBit k = true ∧ cfg.FL_ALIGN_INSIDE.testBit k = true) := by
    rw [Bool.and_eq_true, land_ne_zero_iff]
    simp
  by_cases hd : (s.driver.pWindow.damage &&& int_compl cfg.FL_DAMAGE_CHILD != 0) = true
  · by_cases hi : (s.driver.pWindow.image != 0 &&
        (s.driver.pWindow.align &&& cfg.FL_ALIGN_INSIDE) != 0) = true
    · have hcond := And.intro (hbit.mp hd) (himg.mp hi)
      rw [if_pos hd, if_pos hi]
      refine ⟨⟨fun _ => hcond, fun _ =>
        ⟨Call.label_draw (Fl_Window_Driver.draw_l1 s.driver.pWindow) 0 0
          s.driver.pWindow.w s.driver.pWindow.h s.driver.pWindow.align, by simp, rfl⟩⟩,
        fun _ => ⟨Fl_Window_Driver.draw_l1 s.driver.pWindow, _, rfl, ?_, ?_⟩⟩
      · split_ifs <;> simp [Call.is_label_draw, List.filter]
      · rw [draw_l1_eq]
        exact ⟨rfl, rfl, rfl, rfl⟩
    · have hncond : ¬ ((∃ k, s.driver.pWindow.damage.testBit k = true ∧
            cfg.FL_DAMAGE_CHILD.testBit k = false) ∧
          s.driver.pWindow.image ≠ 0 ∧
          ∃ k, s.driver.pWindow.align.testBit k = true ∧
            cfg.FL_ALIGN_INSIDE.testBit k = true) := fun h => hi (himg.mpr h.2)
      rw [if_pos hd, if_neg hi]
      refine ⟨⟨?_, fun h => absurd h hncond⟩, fun h => absurd h hncond⟩
      rintro ⟨c, hc, hb⟩
      exfalso
      split_ifs at hc <;> simp at hc <;> rcases hc with rfl | rfl | rfl <;>
        simp [Call.is_label_draw] at hb
  · have hncond : ¬ ((∃ k, s.driver.pWindow.damage.testBit k = true ∧
          cfg.FL_DAMAGE_CHILD.testBit k = false) ∧
        s.driver.pWindow.image ≠ 0 ∧
        ∃ k, s.driver.pWindow.align.testBit k = true ∧
          cfg.FL_ALIGN_INSIDE.testBit k = true) := fun h => hd (hbit.mpr h.1)
    rw [if_neg hd]
    refine ⟨⟨?_, fun h => absurd h hncond⟩, fun h => absurd h hncond⟩
    rintro ⟨c, hc, hb⟩
    exfalso
    split_ifs at hc <;> simp at hc <;> rcases hc with rfl | rfl <;>
      simp [Call.is_label_draw] at hb

/-- Witness of `draw_image_iff_inside` on the sample window, which has the image 5
and the alignment `FL_ALIGN_INSIDE`. -/
theorem draw_image_iff_inside_witness :
    ((∃ k, Machine.sample.driver.pWindow.damage.testBit k = true ∧
        Config.fltk.FL_DAMAGE_CHILD.testBit k = false) ∧
      Machine.sample.driver.pWindow.image ≠ 0 ∧
      ∃ k, Machine.sample.driver.pWindow.align.testBit k = true ∧
        Config.fltk.FL_ALIGN_INSIDE.testBit k = true) ∧
    ∃ l rest,
      Machine.emitted Machine.sample (Fl_Window_Driver.draw Config.fltk Machine.sample) =
        Call.draw_box 1 0 0 200 100 49 :: Call.label_draw l 0 0 200 100 16 :: rest ∧
      rest.filter Call.is_label_draw = [] ∧
      l.image = 5 ∧ l.value = 0 ∧ l.align_ = 16 ∧ l.type = 0 :=
  ⟨⟨⟨7, by decide, by decide⟩, by decide, ⟨4, by decide, by decide⟩⟩,
   (draw_image_iff_inside Config.fltk Machine.sample).2
     ⟨⟨7, by decide, by decide⟩, by decide, ⟨4, by decide, by decide⟩⟩⟩

/-- C10: the label record that `Fl_Window_Driver::draw` builds carries the window's
own image for every window state, active or not, and its deactivated-image field
is null; so every call of `Fl_Label::draw` that `draw` makes passes the window's
own `image()` and the deactivated image is never substituted. -/
theorem draw_label_image_is_window_image (cfg : Config) (s : Machine) (win : Fl_Window) :
    (Fl_Window_Driver.draw_l1 win).image = win.image ∧
    (Fl_Window_Driver.draw_l1 win).deimage = 0 ∧
    (∀ l x y w h a,
      Call.label_draw l x y w h a ∈ Machine.emitted s (Fl_Window_Driver.draw cfg s) →
        l.image = s.driver.pWindow.image ∧ l.deimage = 0) := by
  refine ⟨by rw [draw_l1_eq], by rw [draw_l1_eq]; rfl, ?_⟩
  intro l x y w h a hl
  rw [draw_emitted] at hl
  have hv : (Fl_Window_Driver.draw_l1 s.driver.pWindow).image = s.driver.pWindow.image ∧
      (Fl_Window_Driver.draw_l1 s.driver.pWindow).deimage = 0 := by
    rw [draw_l1_eq]
    exact ⟨rfl, rfl⟩
  split_ifs at hl <;> simp at hl <;> (rw [hl.1]; exact hv)

/-- Witness of `draw_label_image_is_window_image` on the sample window, which is
inactive and has the image 5. -/
theorem draw_label_image_is_window_image_witness :
    Machine.sample.driver.pWindow.active_r = false ∧
    Call.label_draw (Fl_Window_Driver.draw_l1 Fl_Window.sample) 0 0 200 100 16 ∈
      Machine.emitted Machine.sample (Fl_Window_Driver.draw Config.fltk Machine.sample) ∧
    ((Fl_Window_Driver.draw_l1 Fl_Window.sample).image = 5 ∧
      (Fl_Window_Driver.draw_l1 Fl_Window.sample).deimage = 0) :=
  ⟨rfl, by decide,
   (draw_label_image_is_window_image Config.fltk Machine.sample Fl_Window.sample).2.2
     _ 0 0 200 100 16 (by decide)⟩
